import Mathlib

/-
Verification of the observable_primitives repository: the ObservableInteger
numeric wrapper (src/observables/numeric_base.py, src/observables/integer.py)
and the integer/counter condition observers (src/observers/integer.py).

Python ints are modelled as Int; Python floats are modelled as exact
rationals (every float arising in the verified claims - results of true
division of small integers, configured fractions such as 0.5 - is exactly
representable, so no binary rounding is involved). Rational arithmetic is
implemented through mkRat and the num/den projections so that all
definitions reduce inside the kernel.
-/

namespace ObservablePrimitives

/-- Python numeric value: an int or a float (modelled as an exact rational).
The tag mirrors the runtime type, so isinstance(v, int) is the pint case;
a Python float such as 2.0 is NOT an int. -/
inductive PyNum where
  | pint (n : Int)
  | pfloat (q : ℚ)
deriving DecidableEq

def PyNum.toQ : PyNum → ℚ
  | .pint n => mkRat n 1
  | .pfloat q => q

/-- Python isinstance(v, int). -/
def PyNum.isInt : PyNum → Bool
  | .pint _ => true
  | .pfloat _ => false

/-- Kernel-friendly rational helpers (mkRat keeps values normalized, so
DecidableEq on ℚ is value equality). -/
def qNeg (q : ℚ) : ℚ := mkRat (-q.num) q.den

def qAdd (a b : ℚ) : ℚ := mkRat (a.num * (b.den : Int) + b.num * (a.den : Int)) (a.den * b.den)

def qSub (a b : ℚ) : ℚ := qAdd a (qNeg b)

def qMul (a b : ℚ) : ℚ := mkRat (a.num * b.num) (a.den * b.den)

/-- Rational division; callers guard against a zero divisor. -/
def qDiv (a b : ℚ) : ℚ :=
  if 0 ≤ b.num then mkRat (a.num * (b.den : Int)) (a.den * b.num.toNat)
  else mkRat (-(a.num * (b.den : Int))) (a.den * (-b.num).toNat)

def qLtb (a b : ℚ) : Bool := a.num * (b.den : Int) < b.num * (a.den : Int)

def qLeb (a b : ℚ) : Bool := a.num * (b.den : Int) ≤ b.num * (a.den : Int)

def qIsZero (q : ℚ) : Bool := q.num = 0

def ratFloor (q : ℚ) : Int := Int.fdiv q.num (q.den : Int)

/-- Truncation toward zero, the behavior of Python int() on a float. -/
def ratTrunc (q : ℚ) : Int := if 0 ≤ q.num then ratFloor q else -ratFloor (qNeg q)

/-- Python round() to an integer: round half to even. -/
def roundHalfEven (q : ℚ) : Int :=
  let f := ratFloor q
  let r := qSub q (mkRat f 1)
  if qLtb r (mkRat 1 2) then f
  else if qLtb (mkRat 1 2) r then f + 1
  else if Int.fmod f 2 = 0 then f else f + 1

/-- Python addition on numbers: int + int is an int, anything involving a
float is a float. -/
def pyAdd : PyNum → PyNum → PyNum
  | .pint a, .pint b => .pint (a + b)
  | a, b => .pfloat (qAdd a.toQ b.toQ)

def pySub : PyNum → PyNum → PyNum
  | .pint a, .pint b => .pint (a - b)
  | a, b => .pfloat (qSub a.toQ b.toQ)

def pyMul : PyNum → PyNum → PyNum
  | .pint a, .pint b => .pint (a * b)
  | a, b => .pfloat (qMul a.toQ b.toQ)

/-- Python true division always yields a float; callers guard the zero
divisor (ZeroDivisionError). -/
def pyTruediv (a b : PyNum) : PyNum := .pfloat (qDiv a.toQ b.toQ)

/-- Python floor division: int // int is an int (floor semantics),
otherwise a float holding the floor. -/
def pyFloordiv : PyNum → PyNum → PyNum
  | .pint a, .pint b => .pint (Int.fdiv a b)
  | a, b => .pfloat (mkRat (ratFloor (qDiv a.toQ b.toQ)) 1)

/-- Python modulo: sign follows the divisor (fmod semantics). -/
def pyMod : PyNum → PyNum → PyNum
  | .pint a, .pint b => .pint (Int.fmod a b)
  | a, b => .pfloat (qSub a.toQ (qMul b.toQ (mkRat (ratFloor (qDiv a.toQ b.toQ)) 1)))

def pyNeg : PyNum → PyNum
  | .pint n => .pint (-n)
  | .pfloat q => .pfloat (qNeg q)

def pyAbsN : PyNum → PyNum
  | .pint n => .pint (if n < 0 then -n else n)
  | .pfloat q => .pfloat (if q.num < 0 then qNeg q else q)

/-- Python numeric equality compares values across int and float. -/
def pyEqb (a b : PyNum) : Bool := a.toQ = b.toQ

def pyLtb (a b : PyNum) : Bool := qLtb a.toQ b.toQ

def pyLeb (a b : PyNum) : Bool := qLeb a.toQ b.toQ

def pyIsZero (v : PyNum) : Bool := qIsZero v.toQ

/-- Python int() conversion. -/
def pyInt : PyNum → Int
  | .pint n => n
  | .pfloat q => ratTrunc q

/-- Python round(v) with one argument. -/
def pyRound : PyNum → Int
  | .pint n => n
  | .pfloat q => roundHalfEven q

/-- ASCII lower-casing of one character, enough for the policy keywords. -/
def lowerChar (c : Char) : Char :=
  if 65 ≤ c.toNat ∧ c.toNat ≤ 90 then Char.ofNat (c.toNat + 32) else c

/-- Python str.lower on ASCII strings. -/
def strLower (s : String) : String := String.mk (s.data.map lowerChar)

def padZeros (s : String) (k : Nat) : String :=
  String.mk (List.replicate (k - s.length) '0') ++ s

/-- Python percent formatting of a float with the default precision of six
decimal places, as in f-string formatting with a percent conversion:
the value times 100, fixed-point with six decimals, then a percent sign. -/
def formatPercent (q : ℚ) : String :=
  let n := roundHalfEven (qMul q (mkRat 100000000 1))
  let sgn := if n < 0 then "-" else ""
  let m := n.natAbs
  sgn ++ toString (m / 1000000) ++ "." ++ padZeros (toString (m % 1000000)) 6 ++ "%"

/-- Coercion policy stored in the wrapper attribute incorrect_type_policy:
a string keyword, a callable, or any other object (for example None), as
dispatched by the isinstance checks in ObservableInteger._ireturn. -/
inductive Policy where
  | pstr (s : String)
  | pcallable (f : PyNum → PyNum)
  | pother

/-- Payload of one update_observers call (Modelled from the spec: the
external Observable base's update_observers fans exactly these fields out
to every registered observer, synchronously; the base class is not under
src/). An Event value is produced once per successful mutating call. -/
structure Event where
  method : String
  other : PyNum
  new_val : PyNum
  previous : PyNum
deriving DecidableEq

/-- State of an ObservableInteger (src/observables/integer.py):
the held value, the optional final_value, and the coercion policy. -/
structure ObservableInteger where
  val : PyNum
  final_value : Option PyNum := none
  incorrect_type_policy : Policy := .pstr "round"

/-- ObservableInteger.__init__: the initial value is coerced with int(),
final_value and the policy are stored as given. -/
def observableIntegerInit (v : PyNum) (final : Option PyNum) (policy : Policy) : ObservableInteger :=
  { val := .pint (pyInt v), final_value := final, incorrect_type_policy := policy }

/-- ObservableInteger constructed with the default keyword arguments
final_value=None and incorrect_type_handler="round". -/
def observableIntegerDefault (v : PyNum) : ObservableInteger :=
  observableIntegerInit v none (.pstr "round")

def pyTypeStr : PyNum → String
  | .pint _ => "<class \x27int\x27>"
  | .pfloat _ => "<class \x27float\x27>"

/-- Message of the ValueError raised by ObservableInteger._ireturn: it names
the wrapper type and the runtime type of the offending value. -/
def valueErrorMsg (v : PyNum) : String :=
  "Value of ObservableInteger is not an integer. Instead it is " ++ pyTypeStr v ++ "."

/-- ObservableInteger._ireturn: if the freshly stored value is not an int,
apply the coercion policy (string keyword "round" or "int" after lower(),
a callable, otherwise raise ValueError); then notify observers and return
self. The returned state is the wrapper (return self); the Except carries
the Event passed to update_observers, and an error means the exception was
raised before the notification, so no observer is invoked. -/
def ObservableInteger.ireturn (s : ObservableInteger) (method : String)
    (other previous : PyNum) : ObservableInteger × Except String Event :=
  if s.val.isInt then
    (s, .ok { method := method, other := other, new_val := s.val, previous := previous })
  else
    match s.incorrect_type_policy with
    | .pstr p =>
      if strLower p = "round" then
        let s' : ObservableInteger := { s with val := .pint (pyRound s.val) }
        (s', .ok { method := method, other := other, new_val := s'.val, previous := previous })
      else if strLower p = "int" then
        let s' : ObservableInteger := { s with val := .pint (pyInt s.val) }
        (s', .ok { method := method, other := other, new_val := s'.val, previous := previous })
      else (s, .error (valueErrorMsg s.val))
    | .pcallable f =>
      let s' : ObservableInteger := { s with val := f s.val }
      (s', .ok { method := method, other := other, new_val := s'.val, previous := previous })
    | .pother => (s, .error (valueErrorMsg s.val))

/-- Mutating operations covered by the claims: the augmented arithmetic
operators of ObservableNumeric and the explicit set. -/
inductive MutOp where
  | iadd (other : PyNum)
  | isub (other : PyNum)
  | imul (other : PyNum)
  | itruediv (other : PyNum)
  | ifloordiv (other : PyNum)
  | setval (v : PyNum)

/-- One mutating call (ObservableNumeric.__iadd__ and friends, and set):
snapshot previous, store the raw new value, then run _ireturn. A zero
divisor raises ZeroDivisionError inside the augmented assignment itself,
before the value is replaced and before _ireturn runs. -/
def ObservableInteger.step (s : ObservableInteger) : MutOp → ObservableInteger × Except String Event
  | .iadd o => ObservableInteger.ireturn { s with val := pyAdd s.val o } "__iadd__" o s.val
  | .isub o => ObservableInteger.ireturn { s with val := pySub s.val o } "__isub__" o s.val
  | .imul o => ObservableInteger.ireturn { s with val := pyMul s.val o } "__imul__" o s.val
  | .itruediv o =>
    if pyIsZero o then (s, .error "ZeroDivisionError: division by zero")
    else ObservableInteger.ireturn { s with val := pyTruediv s.val o } "__itruediv__" o s.val
  | .ifloordiv o =>
    if pyIsZero o then (s, .error "ZeroDivisionError: integer division or modulo by zero")
    else ObservableInteger.ireturn { s with val := pyFloordiv s.val o } "__ifloordiv__" o s.val
  | .setval v => ObservableInteger.ireturn { s with val := v } "set" v s.val

/-- Raw value computed and stored by a mutating operation, before the
coercion step of _ireturn. -/
def rawNewVal (s : ObservableInteger) : MutOp → PyNum
  | .iadd o => pyAdd s.val o
  | .isub o => pySub s.val o
  | .imul o => pyMul s.val o
  | .itruediv o => pyTruediv s.val o
  | .ifloordiv o => pyFloordiv s.val o
  | .setval v => v

/-- True when the operation's own arithmetic cannot raise (no zero divisor),
so that a fresh value is actually computed. -/
def MutOp.divisorOk : MutOp → Bool
  | .itruediv o => !(pyIsZero o)
  | .ifloordiv o => !(pyIsZero o)
  | _ => true

/-- Run a sequence of mutating operations, collecting the delivered events
in order; the first raised exception aborts the run. -/
def ObservableInteger.runOps : ObservableInteger → List MutOp → Except String (ObservableInteger × List Event)
  | s, [] => .ok (s, [])
  | s, op :: rest =>
    match s.step op with
    | (_, .error e) => .error e
    | (s1, .ok ev) =>
      match ObservableInteger.runOps s1 rest with
      | .error e => .error e
      | .ok (s2, evs) => .ok (s2, ev :: evs)

/-- Chain property of a delivered event list: each event's previous value is
the wrapper value just before its operation, each event's new value is the
value just after it, and the last new value is the final wrapper value. -/
def eventsChain : PyNum → List Event → PyNum → Prop
  | v, [], w => v = w
  | v, e :: es, w => e.previous = v ∧ eventsChain e.new_val es w

/-- Python built-in range for the one- and two-argument forms. -/
def pyRangeSeq (a b : Int) : List Int :=
  (List.range (b - a).toNat).map (fun i => a + (i : Int))

/-- Body of the for-loop in ObservableInteger.range. Each iteration
evaluates self.set(i, method="range"); ObservableNumeric.set is declared as
set(self, val) and accepts no keyword argument named method, so on a
non-empty sequence Python raises TypeError at the first iteration, before
the body of set runs: the wrapper value is not mutated and no observer is
notified. -/
def rangeLoop (s : ObservableInteger) : List Int → ObservableInteger × Except String (List Event)
  | [] => (s, .ok [])
  | _ :: _ => (s, .error "TypeError: set() got an unexpected keyword argument \x27method\x27")

/-- ObservableInteger.range consumed to exhaustion or to the first raised
exception: first final_value is assigned from the bounds (args[0] - 1 for
one argument, args[1] - 1 otherwise), then the loop runs. Arities other
than one and two bounds are not used by the claims and are not modelled. -/
def ObservableInteger.rangeRun (s : ObservableInteger) : List Int → ObservableInteger × Except String (List Event)
  | [b] => rangeLoop { s with final_value := some (.pint (b - 1)) } (pyRangeSeq 0 b)
  | [a, b] => rangeLoop { s with final_value := some (.pint (b - 1)) } (pyRangeSeq a b)
  | _ => (s, .error "range arity not modelled")

/-- Result of a read-only Python operation: a number, a bool, a bytes
object, a complex number, or a pair (divmod). -/
inductive PyVal where
  | num (v : PyNum)
  | pybool (b : Bool)
  | pybytes (bs : List Nat)
  | pycomplex (re im : ℚ)
  | pypair (a b : PyNum)
deriving DecidableEq

/-- Instrumented result of a read-only method call: the returned value (or
raised exception), the wrapper object after the call, and the list of
notifications sent during the call. -/
abbrev RO := Except String PyVal × ObservableInteger × List Event

/-- Python true division as an expression (raises on a zero divisor). -/
def pyTruedivE (v o : PyNum) : Except String PyVal :=
  if pyIsZero o then .error "ZeroDivisionError: division by zero"
  else .ok (.num (pyTruediv v o))

def pyFloordivE (v o : PyNum) : Except String PyVal :=
  if pyIsZero o then .error "ZeroDivisionError: integer division or modulo by zero"
  else .ok (.num (pyFloordiv v o))

def pyModE (v o : PyNum) : Except String PyVal :=
  if pyIsZero o then .error "ZeroDivisionError: integer division or modulo by zero"
  else .ok (.num (pyMod v o))

def pyDivmodE (v o : PyNum) : Except String PyVal :=
  if pyIsZero o then .error "ZeroDivisionError: integer division or modulo by zero"
  else .ok (.pypair (pyFloordiv v o) (pyMod v o))

/-- Python pow(base, exp, mod) for an integer exponent. A negative exponent
without a modulus gives a float; with a modulus it needs an invertible base
(Python 3.8 semantics, via the extended Euclidean algorithm); a float base
rejects a modulus. Irrational float powers are outside the rational model
and are not needed by the claims. -/
def pyPowE (v : PyNum) (power : Int) (modulo : Option Int) : Except String PyVal :=
  match modulo with
  | none =>
    match v with
    | .pint b =>
      if 0 ≤ power then .ok (.num (.pint (b ^ power.toNat)))
      else if b = 0 then .error "ZeroDivisionError: 0 cannot be raised to a negative power"
      else .ok (.num (.pfloat (qDiv (mkRat 1 1) (mkRat (b ^ (-power).toNat) 1))))
    | .pfloat q =>
      if 0 ≤ power then .ok (.num (.pfloat (qPowNat q power.toNat)))
      else if qIsZero q then .error "ZeroDivisionError: 0.0 cannot be raised to a negative power"
      else .ok (.num (.pfloat (qDiv (mkRat 1 1) (qPowNat q (-power).toNat))))
  | some m =>
    match v with
    | .pfloat _ => .error "TypeError: pow() 3rd argument not allowed unless all arguments are integers"
    | .pint b =>
      if m = 0 then .error "ValueError: pow() 3rd argument cannot be 0"
      else if 0 ≤ power then .ok (.num (.pint (Int.fmod (b ^ power.toNat) m)))
      else if Int.gcd b m ≠ 1 then .error "ValueError: base is not invertible for the given modulus"
      else .ok (.num (.pint (Int.fmod ((Int.fmod (Int.gcdA b m) m) ^ (-power).toNat) m)))
where qPowNat (q : ℚ) : Nat → ℚ
  | 0 => mkRat 1 1
  | n + 1 => qMul q (qPowNat q n)

/-- Python left shift on integers (floats are a TypeError). -/
def pyLshiftE : PyNum → PyNum → Except String PyVal
  | .pint a, .pint k =>
    if k < 0 then .error "ValueError: negative shift count"
    else .ok (.num (.pint (a * ((2 : Int) ^ k.toNat))))
  | _, _ => .error "TypeError: unsupported operand type for <<"

/-- Python right shift on integers: an arithmetic shift, flooring. -/
def pyRshiftE : PyNum → PyNum → Except String PyVal
  | .pint a, .pint k =>
    if k < 0 then .error "ValueError: negative shift count"
    else .ok (.num (.pint (Int.fdiv a ((2 : Int) ^ k.toNat))))
  | _, _ => .error "TypeError: unsupported operand type for >>"

/-- Python bitwise conjunction on integers, two's complement semantics. -/
def pyAndE : PyNum → PyNum → Except String PyVal
  | .pint a, .pint b => .ok (.num (.pint (Int.land a b)))
  | _, _ => .error "TypeError: unsupported operand type for &"

def pyOrE : PyNum → PyNum → Except String PyVal
  | .pint a, .pint b => .ok (.num (.pint (Int.lor a b)))
  | _, _ => .error "TypeError: unsupported operand type for |"

def pyXorE : PyNum → PyNum → Except String PyVal
  | .pint a, .pint b => .ok (.num (.pint (Int.xor a b)))
  | _, _ => .error "TypeError: unsupported operand type for ^"

/-- Python bytes(n): n zero bytes for a nonnegative int. -/
def pyBytesE : PyNum → Except String PyVal
  | .pint n => if 0 ≤ n then .ok (.pybytes (List.replicate n.toNat 0)) else .error "ValueError: negative count"
  | .pfloat _ => .error "TypeError: cannot convert float object to bytes"

def qPow10 (k : Int) : ℚ :=
  if 0 ≤ k then mkRat ((10 : Int) ^ k.toNat) 1 else mkRat 1 ((10 : Nat) ^ (-k).toNat)

/-- Python round(v, ndigits): with None an int (half to even); with an int
second argument an int stays an int (rounded to a multiple of a power of
ten when ndigits is negative) and a float stays a float. -/
def pyRoundE (v : PyNum) (ndigits : Option Int) : Except String PyVal :=
  match ndigits with
  | none => .ok (.num (.pint (pyRound v)))
  | some k =>
    match v with
    | .pint n =>
      if 0 ≤ k then .ok (.num (.pint n))
      else .ok (.num (.pint (roundHalfEven (mkRat n ((10 : Nat) ^ (-k).toNat)) * (10 : Int) ^ (-k).toNat)))
    | .pfloat q => .ok (.num (.pfloat (qDiv (mkRat (roundHalfEven (qMul q (qPow10 k))) 1) (qPow10 k))))

/-- Read-only operator surface (ObservableNumeric lines 15-66 and
ObservableInteger lines 37-107): each method computes a plain unwrapped
result from self._val and the operand, assigns nothing and notifies
nobody, which the instrumented form records by returning the unchanged
wrapper and an empty notification list. -/
def ObservableInteger.lt (s : ObservableInteger) (other : PyNum) : RO :=
  (.ok (.pybool (pyLtb s.val other)), s, [])

def ObservableInteger.le (s : ObservableInteger) (other : PyNum) : RO :=
  (.ok (.pybool (pyLeb s.val other)), s, [])

def ObservableInteger.eqOp (s : ObservableInteger) (other : PyNum) : RO :=
  (.ok (.pybool (pyEqb s.val other)), s, [])

def ObservableInteger.neOp (s : ObservableInteger) (other : PyNum) : RO :=
  (.ok (.pybool (!pyEqb s.val other)), s, [])

def ObservableInteger.ge (s : ObservableInteger) (other : PyNum) : RO :=
  (.ok (.pybool (pyLeb other s.val)), s, [])

def ObservableInteger.gt (s : ObservableInteger) (other : PyNum) : RO :=
  (.ok (.pybool (pyLtb other s.val)), s, [])

def ObservableInteger.neg (s : ObservableInteger) : RO :=
  (.ok (.num (pyNeg s.val)), s, [])

def ObservableInteger.absOp (s : ObservableInteger) : RO :=
  (.ok (.num (pyAbsN s.val)), s, [])

def ObservableInteger.add (s : ObservableInteger) (other : PyNum) : RO :=
  (.ok (.num (pyAdd s.val other)), s, [])

def ObservableInteger.sub (s : ObservableInteger) (other : PyNum) : RO :=
  (.ok (.num (pySub s.val other)), s, [])

def ObservableInteger.mul (s : ObservableInteger) (other : PyNum) : RO :=
  (.ok (.num (pyMul s.val other)), s, [])

def ObservableInteger.truediv (s : ObservableInteger) (other : PyNum) : RO :=
  (pyTruedivE s.val other, s, [])

def ObservableInteger.floordiv (s : ObservableInteger) (other : PyNum) : RO :=
  (pyFloordivE s.val other, s, [])

def ObservableInteger.modOp (s : ObservableInteger) (other : PyNum) : RO :=
  (pyModE s.val other, s, [])

def ObservableInteger.divmodOp (s : ObservableInteger) (other : PyNum) : RO :=
  (pyDivmodE s.val other, s, [])

def ObservableInteger.powOp (s : ObservableInteger) (power : Int) (modulo : Option Int) : RO :=
  (pyPowE s.val power modulo, s, [])

def ObservableInteger.lshift (s : ObservableInteger) (other : PyNum) : RO :=
  (pyLshiftE s.val other, s, [])

def ObservableInteger.rshift (s : ObservableInteger) (other : PyNum) : RO :=
  (pyRshiftE s.val other, s, [])

def ObservableInteger.andOp (s : ObservableInteger) (other : PyNum) : RO :=
  (pyAndE s.val other, s, [])

def ObservableInteger.orOp (s : ObservableInteger) (other : PyNum) : RO :=
  (pyOrE s.val other, s, [])

def ObservableInteger.xorOp (s : ObservableInteger) (other : PyNum) : RO :=
  (pyXorE s.val other, s, [])

def ObservableInteger.intConv (s : ObservableInteger) : RO :=
  (.ok (.num (.pint (pyInt s.val))), s, [])

def ObservableInteger.floatConv (s : ObservableInteger) : RO :=
  (.ok (.num (.pfloat s.val.toQ)), s, [])

def ObservableInteger.complexConv (s : ObservableInteger) : RO :=
  (.ok (.pycomplex s.val.toQ (mkRat 0 1)), s, [])

def ObservableInteger.bytesConv (s : ObservableInteger) : RO :=
  (pyBytesE s.val, s, [])

def ObservableInteger.roundConv (s : ObservableInteger) (ndigits : Option Int) : RO :=
  (pyRoundE s.val ndigits, s, [])

/-- Specification of a read-only binary method: the returned value depends
only on the held value and the operand, the wrapper is unchanged, and no
notification is sent. -/
def roSpec {τ : Type} (f : ObservableInteger → τ → RO) : Prop :=
  (∀ s t o, s.val = t.val → (f s o).1 = (f t o).1) ∧
  (∀ s o, (f s o).2.1 = s ∧ (f s o).2.2 = [])

/-- Specification of a read-only method without an operand. -/
def roSpecU (f : ObservableInteger → RO) : Prop :=
  (∀ s t, s.val = t.val → (f s).1 = (f t).1) ∧
  (∀ s, (f s).2.1 = s ∧ (f s).2.2 = [])

/-- State of an IntegerConditionObserver (src/observers/integer.py).
The status and reason fields live in the external ConditionObserver base
(Modelled from the spec: the base, not under src/, stores the name, the
default status and the reason and exposes them; the default status is
False and the initial reason is None). The threshold fields hold what
__init__ normalized: divisible_by is None or a list, at_specific_value is
always a list whose entries may be None (a None argument becomes the
one-element list holding None). -/
structure IntegerConditionObserver where
  divisible_by : Option (List Int)
  if_less_than : Option Int
  if_more_than : Option Int
  at_specific_value : List (Option Int)
  status : Bool
  reason : Option String
deriving DecidableEq

/-- State of a CounterConditionObserver: the integer-observer state plus
the counter fields. After construction at_relative always holds a float
(__init__ either keeps a float argument or computes 1.0 / float(x)), but
the field is kept optional to mirror the attribute reads. -/
structure CounterConditionObserver extends IntegerConditionObserver where
  at_relative : Option ℚ
  if_first_iteration : Bool
  last_value : Option Int
  first_val : Int
deriving DecidableEq

/-- The for-loop over divisible_by inside
IntegerConditionObserver._update_status: the first divisor that divides
new_val wins; Python's percent operator raises ZeroDivisionError when a
zero divisor is reached. -/
def divisibleCheck (v : Int) : List Int → Except String (Option Int)
  | [] => .ok none
  | d :: ds =>
    if d = 0 then .error "ZeroDivisionError: integer division or modulo by zero"
    else if Int.fmod v d = 0 then .ok (some d)
    else divisibleCheck v ds

/-- Upper-limit check and the fall-through clearing branch of
IntegerConditionObserver._update_status. -/
def intUpdateStatusMore (o : IntegerConditionObserver) (new_val : Int) : IntegerConditionObserver :=
  match o.if_more_than with
  | some t =>
    if t < new_val then { o with reason := some s!"Value {new_val} > {t}", status := true }
    else { o with reason := none, status := false }
  | none => { o with reason := none, status := false }

/-- Lower-limit check of IntegerConditionObserver._update_status. -/
def intUpdateStatusBounds (o : IntegerConditionObserver) (new_val : Int) : IntegerConditionObserver :=
  match o.if_less_than with
  | some t =>
    if new_val < t then { o with reason := some s!"Value {new_val} < {t}", status := true }
    else intUpdateStatusMore o new_val
  | none => intUpdateStatusMore o new_val

/-- IntegerConditionObserver._update_status: specific values first, then
divisibility, then the lower and upper limits, each branch overwriting
status and reason wholesale and returning; if nothing matches, the reason
is cleared and the status is False. -/
def intUpdateStatus (o : IntegerConditionObserver) (new_val : Int) : Except String IntegerConditionObserver :=
  if (some new_val) ∈ o.at_specific_value then
    .ok { o with reason := some s!"Specifically chosen value {new_val}", status := true }
  else
    match o.divisible_by with
    | some ds =>
      match divisibleCheck new_val ds with
      | .error e => .error e
      | .ok (some d) => .ok { o with reason := some s!"Value {new_val} divisible by {d}", status := true }
      | .ok none => .ok (intUpdateStatusBounds o new_val)
    | none => .ok (intUpdateStatusBounds o new_val)

/-- Reason string written by the relative branch of
CounterConditionObserver._update_status: two concatenated f-strings, the
first ending in a space, the fraction rendered with percent formatting. -/
def relativeReason (stp : Int) (r : ℚ) : String :=
  "Iteration divisible by " ++ toString stp ++ " " ++
    "(increase by " ++ formatPercent r ++ " of total iterations)"

/-- Relative branch of CounterConditionObserver._update_status. When both
last_value and at_relative are present the step is round(last_value *
at_relative); a zero step makes the modulo raise; when the modulo is zero
the source assigns _reason and then executes a bare return True without
assigning _status, so only the reason is updated; otherwise it falls
through with everything unchanged. -/
def counterRelative (o : CounterConditionObserver) (new_val : Int) : Except String CounterConditionObserver :=
  match o.last_value, o.at_relative with
  | some lv, some r =>
    let stp := roundHalfEven (qMul (mkRat lv 1) r)
    if stp = 0 then .error "ZeroDivisionError: integer division or modulo by zero"
    else if Int.fmod new_val stp = 0 then .ok { o with reason := some (relativeReason stp r) }
    else .ok o
  | _, _ => .ok o

/-- Counter-specific part of CounterConditionObserver._update_status, run
on the state already updated by the inherited integer chain: the
first-count check, then the last-count check, each overwriting status and
reason and returning when it fires, then the relative branch. -/
def counterAfterChain (o1 : CounterConditionObserver) (new_val : Int) : Except String CounterConditionObserver :=
  if o1.if_first_iteration = true ∧ new_val = o1.first_val then
    .ok { o1 with reason := some "First count.", status := true }
  else
    match o1.last_value with
    | some lv =>
      if new_val = lv then .ok { o1 with reason := some "Last count.", status := true }
      else counterRelative o1 new_val
    | none => counterRelative o1 new_val

/-- CounterConditionObserver._update_status: first the inherited integer
chain runs (its outcome is not short-circuited on: its exception aborts,
but its status does not stop the counter checks), then the counter
predicates run on the updated state. -/
def counterUpdateStatus (o : CounterConditionObserver) (new_val : Int) : Except String CounterConditionObserver :=
  match intUpdateStatus o.toIntegerConditionObserver new_val with
  | .error e => .error e
  | .ok base => counterAfterChain { o with toIntegerConditionObserver := base } new_val

/-- Python argument that may be an int, a list of ints, or None, as
accepted by divisible_by / at_every / at_specific_value. -/
inductive PyArg where
  | aint (n : Int)
  | alist (ns : List Int)
  | anone

/-- Normalization of divisible_by in IntegerConditionObserver.__init__:
lists and None are kept, anything else is wrapped in a list. -/
def normalizeListArg : PyArg → Option (List Int)
  | .alist ns => some ns
  | .anone => none
  | .aint n => some [n]

/-- Normalization of at_specific_value in
IntegerConditionObserver.__init__: a list is kept, any non-list (including
the None default) is wrapped in a one-element list. -/
def normalizeSpecificArg : PyArg → List (Option Int)
  | .alist ns => ns.map some
  | .anone => [none]
  | .aint n => [some n]

/-- IntegerConditionObserver.__init__ followed by _initialize: thresholds
are normalized and stored with the default status False and reason None
(Modelled from the spec: the external ConditionObserver base stores the
default), then _update_status runs on the observable's current value. -/
def integerObserverInit (divisible_by : PyArg) (if_less_than if_more_than : Option Int)
    (at_specific_value : PyArg) (observed : Int) : Except String IntegerConditionObserver :=
  intUpdateStatus
    { divisible_by := normalizeListArg divisible_by
      if_less_than := if_less_than
      if_more_than := if_more_than
      at_specific_value := normalizeSpecificArg at_specific_value
      status := false
      reason := none } observed

/-- Python argument accepted by the at_relative parameter of
CounterConditionObserver.__init__: a float, an int, or the None default. -/
inductive RelArg where
  | rfloat (q : ℚ)
  | rint (n : Int)
  | rnone

/-- First statement of CounterConditionObserver.__init__: a float argument
is kept as is, every other argument x is replaced by 1.0 / float(x); for
the None default float(None) raises TypeError, for zero the division
raises ZeroDivisionError. -/
def normalizeRelative : RelArg → Except String ℚ
  | .rfloat q => .ok q
  | .rint n =>
    if n = 0 then .error "ZeroDivisionError: float division by zero"
    else .ok (qDiv (mkRat 1 1) (mkRat n 1))
  | .rnone => .error "TypeError: float() argument must be a string or a real number, not \x27NoneType\x27"

/-- CounterConditionObserver.__init__ followed by _initialize: at_relative
is normalized first (so a failure there aborts construction), the counter
fields and the inherited thresholds are stored, and the overridden
_update_status evaluates the observable's current value. -/
def counterObserverInit (at_every : PyArg) (at_relative : RelArg) (if_first_count : Bool)
    (last_value : Option Int) (if_less_than if_more_than : Option Int)
    (at_specific_value : PyArg) (first_val : Int) (observed : Int) :
    Except String CounterConditionObserver :=
  match normalizeRelative at_relative with
  | .error e => .error e
  | .ok r =>
    counterUpdateStatus
      { divisible_by := normalizeListArg at_every
        if_less_than := if_less_than
        if_more_than := if_more_than
        at_specific_value := normalizeSpecificArg at_specific_value
        status := false
        reason := none
        at_relative := some r
        if_first_iteration := if_first_count
        last_value := last_value
        first_val := first_val } observed

/-- Unfolding lemma: when the inherited integer chain returns normally,
CounterConditionObserver._update_status continues with the counter
predicates on the updated state. -/
theorem counterUpdateStatus_chain_ok (o : CounterConditionObserver) (v : Int)
    (b : IntegerConditionObserver) (h : intUpdateStatus o.toIntegerConditionObserver v = .ok b) :
    counterUpdateStatus o v = counterAfterChain { o with toIntegerConditionObserver := b } v := by
  unfold counterUpdateStatus
  rw [h]

/-- C1: at an input meeting every hypothesis of the claim (lastValue = 10 and
relativeFraction = 0.5 set, new value 5 different from firstValue 0 and
lastValue 10, no integer-chain predicate matching, step = round(10 * 0.5) = 5
nonzero and 5 mod 5 = 0) the evaluation leaves the status False while
writing the relative reason: the relative branch assigns the reason and then
executes a bare return True instead of assigning the status, so the claimed
trigger never happens. -/
theorem c1_relative_branch_leaves_status_false :
    (counterUpdateStatus
        ⟨⟨none, none, none, [none], false, none⟩, some (mkRat 1 2), false, some 10, 0⟩
        5).map (fun c => (c.status, c.reason)) =
      .ok (false, some "Iteration divisible by 5 (increase by 50.000000% of total iterations)") ∧
    (intUpdateStatus ⟨none, none, none, [none], false, none⟩ 5).map (fun b => (b.status, b.reason)) =
      .ok (false, none) ∧
    roundHalfEven (qMul (mkRat 10 1) (mkRat 1 2)) = 5 ∧
    Int.fmod 5 (roundHalfEven (qMul (mkRat 10 1) (mkRat 1 2))) = 0 :=
  ⟨rfl, rfl, by decide, by decide⟩

/-- C2: consuming range(5) on a wrapper holding 0 first assigns
final_value = 4, then raises TypeError at the very first loop step, because
the loop body calls self.set(i, method="range") while ObservableNumeric.set
accepts no keyword argument named method; no wrapper state with values
0..4 is ever produced and no notification is delivered. -/
theorem c2_range_raises_type_error :
    ObservableInteger.rangeRun (observableIntegerDefault (.pint 0)) [5] =
      ({ val := .pint 0, final_value := some (.pint 4), incorrect_type_policy := .pstr "round" },
       .error "TypeError: set() got an unexpected keyword argument \x27method\x27") := rfl

/-- C4: whenever the new value is a member of at_specific_value, the
evaluation sets the status to True and records the specific-value reason,
even when the value is also divisible by a configured divisor: the
specific-value branch runs first and returns, so the divisor is never
mentioned. -/
theorem c4_specific_value_wins_over_divisor
    (o : IntegerConditionObserver) (v d : Int) (ds : List Int)
    (hmem : (some v) ∈ o.at_specific_value)
    (_hds : o.divisible_by = some ds) (_hd : d ∈ ds) (_hdiv : Int.fmod v d = 0) :
    intUpdateStatus o v = .ok { o with status := true, reason := some s!"Specifically chosen value {v}" } := by
  unfold intUpdateStatus
  rw [if_pos hmem]

/-- C4 witness: an observer with at_specific_value = [6] and
divisible_by = [3] evaluated at 6 (a member and divisible by 3) reports the
specific-value reason. -/
theorem c4_specific_value_wins_over_divisor_witness :
    intUpdateStatus ⟨some [3], none, none, [some 6], false, none⟩ 6 =
      .ok ⟨some [3], none, none, [some 6], true, some "Specifically chosen value 6"⟩ :=
  c4_specific_value_wins_over_divisor _ 6 3 [3] (by decide) rfl (by decide) (by decide)

/-- C5: with triggerOnFirst set and firstValue = 0, evaluating 0 gives
status True with reason "First count.", whatever the integer chain just
produced; and evaluating a value equal to lastValue (a later value, not
equal to firstValue = 0) gives status True with reason "Last count.",
again overwriting whatever the integer chain produced, including a
simultaneous divisibility match. The hypothesis that the inherited chain
returned normally excludes only a ZeroDivisionError from a zero divisor. -/
theorem c5_first_and_last_count_precedence :
    (∀ (o : CounterConditionObserver) (b : IntegerConditionObserver),
      o.if_first_iteration = true → o.first_val = 0 →
      intUpdateStatus o.toIntegerConditionObserver 0 = .ok b →
      (counterUpdateStatus o 0).map (fun c => (c.status, c.reason)) = .ok (true, some "First count.")) ∧
    (∀ (o : CounterConditionObserver) (lv : Int) (b : IntegerConditionObserver),
      o.if_first_iteration = true → o.first_val = 0 → o.last_value = some lv → lv ≠ 0 →
      intUpdateStatus o.toIntegerConditionObserver lv = .ok b →
      (counterUpdateStatus o lv).map (fun c => (c.status, c.reason)) = .ok (true, some "Last count.")) := by
  constructor
  · intro o b h1 h2 hint
    rw [counterUpdateStatus_chain_ok o 0 b hint]
    unfold counterAfterChain
    rw [if_pos ⟨h1, h2.symm⟩]
    rfl
  · intro o lv b h1 h2 h3 h4 hint
    rw [counterUpdateStatus_chain_ok o lv b hint]
    unfold counterAfterChain
    rw [if_neg (fun hc => h4 (hc.2.trans h2))]
    rw [show ({ o with toIntegerConditionObserver := b } : CounterConditionObserver).last_value = some lv from h3]
    dsimp only
    rw [if_pos rfl]
    rfl

/-- C5 witness: a counter with divisible_by = [5], triggerOnFirst,
firstValue = 0, lastValue = 10. At 0 the chain matches the divisor yet the
reason is "First count."; at 10 the chain again matches the divisor (10 mod
5 = 0) yet the reason is "Last count.". -/
theorem c5_first_and_last_count_precedence_witness :
    (counterUpdateStatus ⟨⟨some [5], none, none, [none], false, none⟩, some (mkRat 1 10), true, some 10, 0⟩ 0).map
        (fun c => (c.status, c.reason)) = .ok (true, some "First count.") ∧
    (counterUpdateStatus ⟨⟨some [5], none, none, [none], false, none⟩, some (mkRat 1 10), true, some 10, 0⟩ 10).map
        (fun c => (c.status, c.reason)) = .ok (true, some "Last count.") :=
  ⟨c5_first_and_last_count_precedence.1 _ ⟨some [5], none, none, [none], true, some "Value 0 divisible by 5"⟩
      rfl rfl rfl,
   c5_first_and_last_count_precedence.2 _ 10 ⟨some [5], none, none, [none], true, some "Value 10 divisible by 5"⟩
      rfl rfl rfl (by decide) rfl⟩

/-- Helper: a value that is not an int is a float, so the ValueError
message names the float runtime type. -/
theorem valueErrorMsg_float (v : PyNum) (h : v.isInt = false) :
    valueErrorMsg v = "Value of ObservableInteger is not an integer. Instead it is <class \x27float\x27>." := by
  cases v with
  | pint n => simp [PyNum.isInt] at h
  | pfloat q => rfl

/-- Helper: with an unrecognized string policy and a non-int value,
_ireturn raises ValueError and mutates nothing further. -/
theorem ireturn_error_of_unrecognized (s : ObservableInteger) (m : String) (o pr : PyNum)
    (p : String) (hpol : s.incorrect_type_policy = .pstr p)
    (h1 : strLower p ≠ "round") (h2 : strLower p ≠ "int") (hv : s.val.isInt = false) :
    s.ireturn m o pr = (s, .error (valueErrorMsg s.val)) := by
  unfold ObservableInteger.ireturn
  rw [hv, if_neg (by decide : ¬(false = true)), hpol]
  dsimp only
  rw [if_neg h1, if_neg h2]

/-- C3: under an unrecognized string coercion policy, any mutating
operation whose arithmetic succeeds but produces a non-int value raises a
ValueError naming the wrapper type and the runtime type of the value, and
returns no event (the exception is raised before update_observers, so no
observer is notified); the wrapper is left holding the raw, non-conforming
post-operation value. -/
theorem c3_unrecognized_policy_fails_before_notification
    (s : ObservableInteger) (op : MutOp) (p : String)
    (hpol : s.incorrect_type_policy = .pstr p)
    (h1 : strLower p ≠ "round") (h2 : strLower p ≠ "int")
    (hok : op.divisorOk = true) (hraw : (rawNewVal s op).isInt = false) :
    (s.step op).1.val = rawNewVal s op ∧
    (s.step op).2 = .error "Value of ObservableInteger is not an integer. Instead it is <class \x27float\x27>." := by
  have hmsg := valueErrorMsg_float _ hraw
  cases op with
  | iadd o =>
    rw [show s.step (.iadd o) = ObservableInteger.ireturn { s with val := pyAdd s.val o } "__iadd__" o s.val from rfl,
        ireturn_error_of_unrecognized { s with val := pyAdd s.val o } "__iadd__" o s.val p hpol h1 h2 hraw]
    exact ⟨rfl, congrArg Except.error hmsg⟩
  | isub o =>
    rw [show s.step (.isub o) = ObservableInteger.ireturn { s with val := pySub s.val o } "__isub__" o s.val from rfl,
        ireturn_error_of_unrecognized { s with val := pySub s.val o } "__isub__" o s.val p hpol h1 h2 hraw]
    exact ⟨rfl, congrArg Except.error hmsg⟩
  | imul o =>
    rw [show s.step (.imul o) = ObservableInteger.ireturn { s with val := pyMul s.val o } "__imul__" o s.val from rfl,
        ireturn_error_of_unrecognized { s with val := pyMul s.val o } "__imul__" o s.val p hpol h1 h2 hraw]
    exact ⟨rfl, congrArg Except.error hmsg⟩
  | itruediv o =>
    have hz : pyIsZero o = false := by
      have h := hok
      simp [MutOp.divisorOk] at h
      exact h
    rw [show s.step (.itruediv o) = if pyIsZero o = true then (s, .error "ZeroDivisionError: division by zero")
          else ObservableInteger.ireturn { s with val := pyTruediv s.val o } "__itruediv__" o s.val from rfl]
    rw [if_neg (by rw [hz]; exact Bool.false_ne_true)]
    rw [ireturn_error_of_unrecognized { s with val := pyTruediv s.val o } "__itruediv__" o s.val p hpol h1 h2 hraw]
    exact ⟨rfl, congrArg Except.error hmsg⟩
  | ifloordiv o =>
    have hz : pyIsZero o = false := by
      have h := hok
      simp [MutOp.divisorOk] at h
      exact h
    rw [show s.step (.ifloordiv o) = if pyIsZero o = true then (s, .error "ZeroDivisionError: integer division or modulo by zero")
          else ObservableInteger.ireturn { s with val := pyFloordiv s.val o } "__ifloordiv__" o s.val from rfl]
    rw [if_neg (by rw [hz]; exact Bool.false_ne_true)]
    rw [ireturn_error_of_unrecognized { s with val := pyFloordiv s.val o } "__ifloordiv__" o s.val p hpol h1 h2 hraw]
    exact ⟨rfl, congrArg Except.error hmsg⟩
  | setval v =>
    rw [show s.step (.setval v) = ObservableInteger.ireturn { s with val := v } "set" v s.val from rfl,
        ireturn_error_of_unrecognized { s with val := v } "set" v s.val p hpol h1 h2 hraw]
    exact ⟨rfl, congrArg Except.error hmsg⟩

/-- C3 witness: a wrapper holding 5 with policy "reject", mutated with an
in-place division by 2: the raw value 2.5 is kept and the ValueError is
raised with no event. -/
theorem c3_unrecognized_policy_fails_before_notification_witness :
    ((⟨.pint 5, none, .pstr "reject"⟩ : ObservableInteger).step (.itruediv (.pint 2))).1.val =
      rawNewVal ⟨.pint 5, none, .pstr "reject"⟩ (.itruediv (.pint 2)) ∧
    ((⟨.pint 5, none, .pstr "reject"⟩ : ObservableInteger).step (.itruediv (.pint 2))).2 =
      .error "Value of ObservableInteger is not an integer. Instead it is <class \x27float\x27>." :=
  c3_unrecognized_policy_fails_before_notification _ _ "reject" rfl (by decide) (by decide) rfl rfl

/-- C6 counterexample: a wrapper holding the float 2.5 with policy
"Truncate" is NOT coerced to the truncated value 2 as the claim states:
_ireturn recognizes only "round" and "int" after lower(), so "Truncate"
falls into the rejecting branch and raises ValueError. -/
theorem c6_truncate_policy_is_rejected :
    ((⟨.pfloat (mkRat 5 2), none, .pstr "Truncate"⟩ : ObservableInteger).ireturn "__itruediv__" (.pint 2) (.pint 5)).2 =
      .error "Value of ObservableInteger is not an integer. Instead it is <class \x27float\x27>." ∧
    ((⟨.pfloat (mkRat 5 2), none, .pstr "Truncate"⟩ : ObservableInteger).ireturn "__itruediv__" (.pint 2) (.pint 5)).1.val ≠
      .pint 2 :=
  ⟨rfl, by decide⟩

/-- C6 amended: when a mutating operation leaves a non-int value, the
policy "round" (case-insensitive, and the constructor default) replaces it
with the Python-rounded (half-to-even) integer, the policy "int"
(case-insensitive, not "Truncate", which is unrecognized and raises)
replaces it with the truncated integer, a callable policy replaces it with
policy(value); when the fresh value already is an int, the coercion branch
is skipped entirely and the wrapper is returned unchanged. -/
theorem c6_coercion_policies :
    (∀ v, (observableIntegerDefault v).incorrect_type_policy = .pstr "round") ∧
    (∀ (s : ObservableInteger) (m : String) (o pr : PyNum) (p : String) (q : ℚ),
      s.val = .pfloat q → s.incorrect_type_policy = .pstr p → strLower p = "round" →
      s.ireturn m o pr = ({ s with val := .pint (roundHalfEven q) },
        .ok ⟨m, o, .pint (roundHalfEven q), pr⟩)) ∧
    (∀ (s : ObservableInteger) (m : String) (o pr : PyNum) (p : String) (q : ℚ),
      s.val = .pfloat q → s.incorrect_type_policy = .pstr p → strLower p = "int" →
      s.ireturn m o pr = ({ s with val := .pint (ratTrunc q) },
        .ok ⟨m, o, .pint (ratTrunc q), pr⟩)) ∧
    (∀ (s : ObservableInteger) (m : String) (o pr : PyNum) (f : PyNum → PyNum),
      s.val.isInt = false → s.incorrect_type_policy = .pcallable f →
      s.ireturn m o pr = ({ s with val := f s.val }, .ok ⟨m, o, f s.val, pr⟩)) ∧
    (∀ (s : ObservableInteger) (m : String) (o pr : PyNum),
      s.val.isInt = true → s.ireturn m o pr = (s, .ok ⟨m, o, s.val, pr⟩)) := by
  refine ⟨fun _ => rfl, ?_, ?_, ?_, ?_⟩
  · intro s m o pr p q hval hpol hkey
    unfold ObservableInteger.ireturn
    rw [hval, hpol]
    dsimp only [PyNum.isInt]
    rw [if_neg (by decide : ¬(false = true)), if_pos hkey]
    rfl
  · intro s m o pr p q hval hpol hkey
    unfold ObservableInteger.ireturn
    rw [hval, hpol]
    dsimp only [PyNum.isInt]
    rw [if_neg (by decide : ¬(false = true))]
    rw [if_neg (fun h : strLower p = "round" => by rw [hkey] at h; exact absurd h (by decide)), if_pos hkey]
    rfl
  · intro s m o pr f hval hpol
    unfold ObservableInteger.ireturn
    rw [hval, if_neg (by decide : ¬(false = true)), hpol]
  · intro s m o pr hval
    unfold ObservableInteger.ireturn
    rw [hval, if_pos rfl]

/-- C6 witness: the policy "Round" (mixed case) coerces 2.5 to the
half-to-even rounded value 2, and the policy "INT" truncates 2.5 to 2. -/
theorem c6_coercion_policies_witness :
    ((⟨.pfloat (mkRat 5 2), none, .pstr "Round"⟩ : ObservableInteger).ireturn "set" (.pint 0) (.pint 0)) =
      ({ val := .pint (roundHalfEven (mkRat 5 2)), final_value := none, incorrect_type_policy := .pstr "Round" },
        .ok ⟨"set", .pint 0, .pint (roundHalfEven (mkRat 5 2)), .pint 0⟩) ∧
    roundHalfEven (mkRat 5 2) = 2 ∧
    ((⟨.pfloat (mkRat 5 2), none, .pstr "INT"⟩ : ObservableInteger).ireturn "set" (.pint 0) (.pint 0)) =
      ({ val := .pint (ratTrunc (mkRat 5 2)), final_value := none, incorrect_type_policy := .pstr "INT" },
        .ok ⟨"set", .pint 0, .pint (ratTrunc (mkRat 5 2)), .pint 0⟩) ∧
    ratTrunc (mkRat 5 2) = 2 :=
  ⟨c6_coercion_policies.2.1 _ "set" (.pint 0) (.pint 0) "Round" (mkRat 5 2) rfl rfl (by decide),
   by decide,
   c6_coercion_policies.2.2.1 _ "set" (.pint 0) (.pint 0) "INT" (mkRat 5 2) rfl rfl (by decide),
   by decide⟩

/-- Helper: every event produced by _ireturn carries the snapshot it was
given as previous value and the post-coercion wrapper value as new value. -/
theorem ireturn_ok_fields (s : ObservableInteger) (m : String) (o pr : PyNum)
    (s' : ObservableInteger) (e : Event) (h : s.ireturn m o pr = (s', .ok e)) :
    e.previous = pr ∧ e.new_val = s'.val := by
  unfold ObservableInteger.ireturn at h
  split at h
  · obtain ⟨rfl, h2⟩ := Prod.mk.injEq .. ▸ h
    obtain rfl := Except.ok.inj h2
    exact ⟨rfl, rfl⟩
  · split at h
    · split at h
      · obtain ⟨rfl, h2⟩ := Prod.mk.injEq .. ▸ h
        obtain rfl := Except.ok.inj h2
        exact ⟨rfl, rfl⟩
      · split at h
        · obtain ⟨rfl, h2⟩ := Prod.mk.injEq .. ▸ h
          obtain rfl := Except.ok.inj h2
          exact ⟨rfl, rfl⟩
        · exact absurd (congrArg Prod.snd h) (by simp)
    · obtain ⟨rfl, h2⟩ := Prod.mk.injEq .. ▸ h
      obtain rfl := Except.ok.inj h2
      exact ⟨rfl, rfl⟩
    · exact absurd (congrArg Prod.snd h) (by simp)

/-- Helper: every event produced by a single mutating step carries the
pre-operation value as previous and the post-coercion value as new. -/
theorem step_ok_fields (s : ObservableInteger) (op : MutOp) (s' : ObservableInteger)
    (e : Event) (h : s.step op = (s', .ok e)) :
    e.previous = s.val ∧ e.new_val = s'.val := by
  cases op with
  | iadd o => exact ireturn_ok_fields _ _ _ _ _ _ h
  | isub o => exact ireturn_ok_fields _ _ _ _ _ _ h
  | imul o => exact ireturn_ok_fields _ _ _ _ _ _ h
  | itruediv o =>
    rw [show s.step (.itruediv o) = if pyIsZero o = true then (s, .error "ZeroDivisionError: division by zero")
          else ObservableInteger.ireturn { s with val := pyTruediv s.val o } "__itruediv__" o s.val from rfl] at h
    split at h
    · exact absurd (congrArg Prod.snd h) (by simp)
    · exact ireturn_ok_fields _ _ _ _ _ _ h
  | ifloordiv o =>
    rw [show s.step (.ifloordiv o) = if pyIsZero o = true then (s, .error "ZeroDivisionError: integer division or modulo by zero")
          else ObservableInteger.ireturn { s with val := pyFloordiv s.val o } "__ifloordiv__" o s.val from rfl] at h
    split at h
    · exact absurd (congrArg Prod.snd h) (by simp)
    · exact ireturn_ok_fields _ _ _ _ _ _ h
  | setval v => exact ireturn_ok_fields _ _ _ _ _ _ h

/-- C7: for every single mutating operation that completes, the delivered
event's previous value is the wrapper value immediately before the
operation and its new value is the wrapper value immediately after the
coercion step (the state returned by the call, since the call returns the
wrapper itself); and over every successful sequence of mutating
operations, the events chain: each previous equals the value before that
operation and each new value equals the value after it, down to the final
state. -/
theorem c7_events_carry_pre_and_post_values :
    (∀ (s : ObservableInteger) (op : MutOp) (s' : ObservableInteger) (e : Event),
      s.step op = (s', .ok e) → e.previous = s.val ∧ e.new_val = s'.val) ∧
    (∀ (ops : List MutOp) (s s' : ObservableInteger) (evs : List Event),
      ObservableInteger.runOps s ops = .ok (s', evs) → eventsChain s.val evs s'.val) := by
  refine ⟨step_ok_fields, ?_⟩
  intro ops
  induction ops with
  | nil =>
    intro s s' evs h
    obtain ⟨rfl, rfl⟩ := Prod.mk.injEq .. ▸ Except.ok.inj h
    exact rfl
  | cons op rest ih =>
    intro s s' evs h
    rw [show ObservableInteger.runOps s (op :: rest) =
          (match s.step op with
           | (_, .error e) => .error e
           | (s1, .ok ev) =>
             match ObservableInteger.runOps s1 rest with
             | .error e => .error e
             | .ok (s2, evs2) => .ok (s2, ev :: evs2)) from rfl] at h
    rcases hstep : s.step op with ⟨s1, r⟩
    rw [hstep] at h
    cases r with
    | error e => exact absurd h (by simp)
    | ok ev =>
      dsimp only at h
      rcases hrest : ObservableInteger.runOps s1 rest with e2 | p2
      · rw [hrest] at h
        exact absurd h (by simp)
      · rcases p2 with ⟨s2, evs2⟩
        rw [hrest] at h
        obtain ⟨rfl, rfl⟩ := Prod.mk.injEq .. ▸ Except.ok.inj h
        refine ⟨(step_ok_fields s op s1 ev hstep).1, ?_⟩
        rw [(step_ok_fields s op s1 ev hstep).2]
        exact ih s1 s2 evs2 hrest

/-- C7 witness: starting from 0, the run += 3, /= 2, set(7) delivers three
events whose previous/new values chain through 0, 3, 2 (the division yields
1.5, rounded to 2 by the default policy) and 7, ending at the final value. -/
theorem c7_events_carry_pre_and_post_values_witness :
    eventsChain (.pint 0)
      [⟨"__iadd__", .pint 3, .pint 3, .pint 0⟩,
       ⟨"__itruediv__", .pint 2, .pint 2, .pint 3⟩,
       ⟨"set", .pint 7, .pint 7, .pint 2⟩]
      (.pint 7) :=
  c7_events_carry_pre_and_post_values.2
    [.iadd (.pint 3), .itruediv (.pint 2), .setval (.pint 7)]
    (observableIntegerDefault (.pint 0))
    ⟨.pint 7, none, .pstr "round"⟩
    _ rfl

/-- C8: every read-only operator - the six comparisons, unary negation and
abs, addition, subtraction, multiplication, true division, floor division,
modulo, divmod, power, the two shifts, bitwise and/or/xor, and the
conversions to int, float, complex, bytes and round - returns a plain
unwrapped result that depends only on the held value and the operand
(wrappers differing elsewhere give the same result), leaves the wrapper
unchanged, and sends no notification. -/
theorem c8_read_only_operators_are_pure :
    roSpec ObservableInteger.lt ∧ roSpec ObservableInteger.le ∧
    roSpec ObservableInteger.eqOp ∧ roSpec ObservableInteger.neOp ∧
    roSpec ObservableInteger.ge ∧ roSpec ObservableInteger.gt ∧
    roSpecU ObservableInteger.neg ∧ roSpecU ObservableInteger.absOp ∧
    roSpec ObservableInteger.add ∧ roSpec ObservableInteger.sub ∧
    roSpec ObservableInteger.mul ∧ roSpec ObservableInteger.truediv ∧
    roSpec ObservableInteger.floordiv ∧ roSpec ObservableInteger.modOp ∧
    roSpec ObservableInteger.divmodOp ∧
    roSpec (fun s (a : Int × Option Int) => ObservableInteger.powOp s a.1 a.2) ∧
    roSpec ObservableInteger.lshift ∧ roSpec ObservableInteger.rshift ∧
    roSpec ObservableInteger.andOp ∧ roSpec ObservableInteger.orOp ∧
    roSpec ObservableInteger.xorOp ∧
    roSpecU ObservableInteger.intConv ∧ roSpecU ObservableInteger.floatConv ∧
    roSpecU ObservableInteger.complexConv ∧ roSpecU ObservableInteger.bytesConv ∧
    roSpec ObservableInteger.roundConv := by
  refine ⟨?_, ?_, ?_, ?_, ?_, ?_, ?_, ?_, ?_, ?_, ?_, ?_, ?_, ?_, ?_, ?_, ?_, ?_, ?_, ?_, ?_, ?_, ?_, ?_, ?_, ?_⟩
  · exact ⟨fun s t o h => by simp only [ObservableInteger.lt, h], fun s o => ⟨rfl, rfl⟩⟩
  · exact ⟨fun s t o h => by simp only [ObservableInteger.le, h], fun s o => ⟨rfl, rfl⟩⟩
  · exact ⟨fun s t o h => by simp only [ObservableInteger.eqOp, h], fun s o => ⟨rfl, rfl⟩⟩
  · exact ⟨fun s t o h => by simp only [ObservableInteger.neOp, h], fun s o => ⟨rfl, rfl⟩⟩
  · exact ⟨fun s t o h => by simp only [ObservableInteger.ge, h], fun s o => ⟨rfl, rfl⟩⟩
  · exact ⟨fun s t o h => by simp only [ObservableInteger.gt, h], fun s o => ⟨rfl, rfl⟩⟩
  · exact ⟨fun s t h => by simp only [ObservableInteger.neg, h], fun s => ⟨rfl, rfl⟩⟩
  · exact ⟨fun s t h => by simp only [ObservableInteger.absOp, h], fun s => ⟨rfl, rfl⟩⟩
  · exact ⟨fun s t o h => by simp only [ObservableInteger.add, h], fun s o => ⟨rfl, rfl⟩⟩
  · exact ⟨fun s t o h => by simp only [ObservableInteger.sub, h], fun s o => ⟨rfl, rfl⟩⟩
  · exact ⟨fun s t o h => by simp only [ObservableInteger.mul, h], fun s o => ⟨rfl, rfl⟩⟩
  · exact ⟨fun s t o h => by simp only [ObservableInteger.truediv, h], fun s o => ⟨rfl, rfl⟩⟩
  · exact ⟨fun s t o h => by simp only [ObservableInteger.floordiv, h], fun s o => ⟨rfl, rfl⟩⟩
  · exact ⟨fun s t o h => by simp only [ObservableInteger.modOp, h], fun s o => ⟨rfl, rfl⟩⟩
  · exact ⟨fun s t o h => by simp only [ObservableInteger.divmodOp, h], fun s o => ⟨rfl, rfl⟩⟩
  · exact ⟨fun s t a h => by simp only [ObservableInteger.powOp, h], fun s a => ⟨rfl, rfl⟩⟩
  · exact ⟨fun s t o h => by simp only [ObservableInteger.lshift, h], fun s o => ⟨rfl, rfl⟩⟩
  · exact ⟨fun s t o h => by simp only [ObservableInteger.rshift, h], fun s o => ⟨rfl, rfl⟩⟩
  · exact ⟨fun s t o h => by simp only [ObservableInteger.andOp, h], fun s o => ⟨rfl, rfl⟩⟩
  · exact ⟨fun s t o h => by simp only [ObservableInteger.orOp, h], fun s o => ⟨rfl, rfl⟩⟩
  · exact ⟨fun s t o h => by simp only [ObservableInteger.xorOp, h], fun s o => ⟨rfl, rfl⟩⟩
  · exact ⟨fun s t h => by simp only [ObservableInteger.intConv, h], fun s => ⟨rfl, rfl⟩⟩
  · exact ⟨fun s t h => by simp only [ObservableInteger.floatConv, h], fun s => ⟨rfl, rfl⟩⟩
  · exact ⟨fun s t h => by simp only [ObservableInteger.complexConv, h], fun s => ⟨rfl, rfl⟩⟩
  · exact ⟨fun s t h => by simp only [ObservableInteger.bytesConv, h], fun s => ⟨rfl, rfl⟩⟩
  · exact ⟨fun s t o h => by simp only [ObservableInteger.roundConv, h], fun s o => ⟨rfl, rfl⟩⟩

/-- C8 witness: two wrappers that share the value 3 but differ in
final_value and policy return the same comparison result for < 4, and the
call leaves the first wrapper unchanged with no notifications. -/
theorem c8_read_only_operators_are_pure_witness :
    ((⟨.pint 3, none, .pstr "round"⟩ : ObservableInteger).lt (.pint 4)).1 =
      ((⟨.pint 3, some (.pint 9), .pother⟩ : ObservableInteger).lt (.pint 4)).1 ∧
    ((⟨.pint 3, none, .pstr "round"⟩ : ObservableInteger).lt (.pint 4)).2.1 =
      ⟨.pint 3, none, .pstr "round"⟩ ∧
    ((⟨.pint 3, none, .pstr "round"⟩ : ObservableInteger).lt (.pint 4)).2.2 = [] :=
  ⟨c8_read_only_operators_are_pure.1.1 ⟨.pint 3, none, .pstr "round"⟩ ⟨.pint 3, some (.pint 9), .pother⟩ (.pint 4) rfl,
   (c8_read_only_operators_are_pure.1.2 ⟨.pint 3, none, .pstr "round"⟩ (.pint 4)).1,
   (c8_read_only_operators_are_pure.1.2 ⟨.pint 3, none, .pstr "round"⟩ (.pint 4)).2⟩

/-- Helper: the relative branch never changes the at_relative field. -/
theorem counterRelative_preserves_at_relative (o : CounterConditionObserver) (v : Int)
    (c : CounterConditionObserver) (h : counterRelative o v = .ok c) :
    c.at_relative = o.at_relative := by
  unfold counterRelative at h
  split at h
  · dsimp only at h
    split at h
    · exact absurd h (by simp)
    · split at h
      · obtain rfl := Except.ok.inj h
        rfl
      · obtain rfl := Except.ok.inj h
        rfl
  · obtain rfl := Except.ok.inj h
    rfl

/-- Helper: a full counter evaluation never changes the at_relative field. -/
theorem counterUpdateStatus_preserves_at_relative (o : CounterConditionObserver) (v : Int)
    (c : CounterConditionObserver) (h : counterUpdateStatus o v = .ok c) :
    c.at_relative = o.at_relative := by
  unfold counterUpdateStatus at h
  split at h
  · exact absurd h (by simp)
  · rename_i base heq
    revert h
    unfold counterAfterChain
    split
    · intro h
      obtain rfl := Except.ok.inj h
      rfl
    · split
      · split
        · intro h
          obtain rfl := Except.ok.inj h
          rfl
        · exact fun h =>
            counterRelative_preserves_at_relative { o with toIntegerConditionObserver := base } v c h
      · exact fun h =>
          counterRelative_preserves_at_relative { o with toIntegerConditionObserver := base } v c h

/-- C10: constructing a CounterConditionObserver while leaving at_relative
at its None default fails with the TypeError raised by float(None) in the
unconditional normalization 1.0 / float(at_relative), whatever the other
arguments are; and every construction that does succeed stores a float in
at_relative, so the relative predicate can never be disabled. -/
theorem c10_counter_requires_at_relative :
    (∀ (at_every : PyArg) (if_first_count : Bool) (last_value : Option Int)
        (if_less_than if_more_than : Option Int) (at_specific_value : PyArg)
        (first_val observed : Int),
      counterObserverInit at_every .rnone if_first_count last_value if_less_than if_more_than
          at_specific_value first_val observed =
        .error "TypeError: float() argument must be a string or a real number, not \x27NoneType\x27") ∧
    (∀ (at_every : PyArg) (at_relative : RelArg) (if_first_count : Bool) (last_value : Option Int)
        (if_less_than if_more_than : Option Int) (at_specific_value : PyArg)
        (first_val observed : Int) (c : CounterConditionObserver),
      counterObserverInit at_every at_relative if_first_count last_value if_less_than if_more_than
          at_specific_value first_val observed = .ok c →
      c.at_relative.isSome = true) := by
  constructor
  · intro at_every if_first_count last_value if_less_than if_more_than at_specific_value first_val observed
    rfl
  · intro at_every at_relative if_first_count last_value if_less_than if_more_than at_specific_value first_val observed c h
    unfold counterObserverInit at h
    rcases hn : normalizeRelative at_relative with e | r
    · rw [hn] at h
      exact absurd h (by simp)
    · rw [hn] at h
      dsimp only at h
      rw [counterUpdateStatus_preserves_at_relative _ _ _ h]
      rfl

/-- C10 witness: a successful construction (at_relative = 0.5) stores the
fraction, so at_relative is present. -/
theorem c10_counter_requires_at_relative_witness :
    ((counterObserverInit (.alist [3]) (.rfloat (mkRat 1 2)) false (some 10) none none .anone 0 7 =
      .ok ⟨⟨some [3], none, none, [none], false, none⟩, some (mkRat 1 2), false, some 10, 0⟩) ∧
    (⟨⟨some [3], none, none, [none], false, none⟩, some (mkRat 1 2), false, some 10, 0⟩
        : CounterConditionObserver).at_relative.isSome = true) :=
  ⟨rfl,
   c10_counter_requires_at_relative.2 (.alist [3]) (.rfloat (mkRat 1 2)) false (some 10) none none
     .anone 0 7 _ rfl⟩

end ObservablePrimitives
